import Mathlib

/-!
Shallow embedding of `export_to_jxf` from `src/main.py` (numpy_to_jxf).

The function takes a NumPy ndarray, coerces its dtype, and writes a Max/MSP
Jitter matrix (.jxf) byte stream.  We model arrays as a dtype, a shape and a
flat row-major element list; the emitted file is a `List Nat` of byte values.
Floating-point bit patterns are abstracted: no claim inspects float payload
byte values, only their count, so FL32/FL64 element serialization keeps the
exact byte width (4 resp. 8) with abstract content.
-/

set_option synthInstance.maxSize 512

namespace NumpyToJxf

/-- NumPy dtypes that occur in the dispatch of `export_to_jxf` (lines 17-37
of `src/main.py`).  `bytesType n` is the 'S' kind with item size `n`;
`unicode n` the 'U' kind. -/
inductive DType
  | uint8 | uint16 | uint32 | uint64
  | int8 | int16 | int32 | int64
  | boolDt
  | float16 | float32 | float64
  | bytesType (n : Nat)
  | complex64 | complex128
  | unicode (n : Nat)
  deriving DecidableEq, Repr

/-- NumPy `dtype.kind` character. -/
def DType.kind : DType → Char
  | .uint8 | .uint16 | .uint32 | .uint64 => 'u'
  | .int8 | .int16 | .int32 | .int64 => 'i'
  | .boolDt => 'b'
  | .float16 | .float32 | .float64 => 'f'
  | .bytesType _ => 'S'
  | .complex64 | .complex128 => 'c'
  | .unicode _ => 'U'

/-- NumPy `dtype.itemsize` in bytes. -/
def DType.itemsize : DType → Nat
  | .uint8 | .int8 | .boolDt => 1
  | .uint16 | .int16 | .float16 => 2
  | .uint32 | .int32 | .float32 => 4
  | .uint64 | .int64 | .float64 | .complex64 => 8
  | .complex128 => 16
  | .bytesType n => n
  | .unicode n => 4 * n

/-- The four Jitter wire types (4-char codes written into the matrix
sub-header). -/
inductive WireType
  | CHAR | LONG | FL32 | FL64
  deriving DecidableEq, Repr

/-- Element byte width of a wire type (1, 4, 4, 8). -/
def WireType.width : WireType → Nat
  | .CHAR => 1
  | .LONG => 4
  | .FL32 => 4
  | .FL64 => 8

/-- The 4 ASCII bytes of the wire-type tag
(CHAR, LONG, FL32, FL64). -/
def WireType.tag : WireType → List Nat
  | .CHAR => [67, 72, 65, 82]
  | .LONG => [76, 79, 78, 71]
  | .FL32 => [70, 76, 51, 50]
  | .FL64 => [70, 76, 54, 52]

/-- Failure modes of `export_to_jxf`.
`unsupportedType d` models the `ValueError` raised at line 37 (and at
line 55's `case _`); `dtypeCheckFailed d` the distinct `ValueError` at
line 41 ("Data type must be float32 or uint8"); `indexError` the Python
`IndexError` from `matrix.shape[2]` at line 56 when the rank is below 3;
`reshapeError` the `ValueError` from `.reshape(matrix.shape)` at line 24
when an 'S' dtype has item size other than 1. -/
inductive JxfError
  | unsupportedType (d : DType)
  | dtypeCheckFailed (d : DType)
  | indexError
  | reshapeError
  deriving DecidableEq, Repr

/-- A NumPy ndarray: dtype, shape, and the elements flattened in row-major
order.  Integer element values are exact; floating-point values are carried
opaquely (their bit patterns are abstracted in serialization). -/
structure NDArray where
  dtype : DType
  shape : List Nat
  data : List Int
  deriving DecidableEq, Repr

/-- `astype(np.uint8)` on one integer/boolean element: keep the low 8 bits
(native integer-narrowing semantics). -/
def astypeUint8 (v : Int) : Int := v.emod 256

/-- `struct.pack` with format `>I`: 4 big-endian bytes.  (`struct.pack`
raises for values at or above 2^32; all claims are evaluated well inside the
range, where this truncating model agrees with it.) -/
def pack32 (n : Nat) : List Nat :=
  [n / 16777216 % 256, n / 65536 % 256, n / 256 % 256, n % 256]

/-- Serialization of one element under a wire type, as written at lines
89-96 of `src/main.py` (`tobytes` resp. `astype` to a big-endian dtype).
CHAR bytes are exact (low 8 bits); LONG is 4 big-endian two's-complement
bytes; FL32/FL64 keep the exact width (4 resp. 8 bytes) with the IEEE-754
bit pattern abstracted, since no claim inspects float payload bytes. -/
def elemBytes : WireType → Int → List Nat
  | .CHAR, v => [(v.emod 256).toNat]
  | .LONG, v => pack32 (v.emod 4294967296).toNat
  | .FL32, _ => [0, 0, 0, 0]
  | .FL64, _ => [0, 0, 0, 0, 0, 0, 0, 0]

/-- Lines 17-37 of `src/main.py`: the dtype-dispatch if/elif chain that
coerces the matrix and picks a preliminary `matrix_type`.
Branches in source order:
1. kind in ['i','u','b'] and dtype != uint8 → `astype(np.uint8)`, CHAR;
2. kind == 'f' and dtype != float32 → `astype(np.float32)`, FL32
   (element values change by float narrowing, which we abstract);
3. kind == 'S' → reinterpret raw bytes as uint8 via
   `np.frombuffer(...).reshape(matrix.shape)`, CHAR — the reshape only
   succeeds when the item size is 1 (otherwise the byte count differs from
   the element count and NumPy raises);
4. dtype == uint8 → CHAR;  5. dtype == float32 → FL32;
6. kind == 'i' → `astype(np.int32)`, LONG;  7. dtype == float64 → FL64;
8. otherwise raise `Unsupported data type`. -/
def resolveDtype (m : NDArray) : Except JxfError (NDArray × WireType) :=
  if (m.dtype.kind = 'i' ∨ m.dtype.kind = 'u' ∨ m.dtype.kind = 'b') ∧ m.dtype ≠ DType.uint8 then
    Except.ok ({ m with dtype := DType.uint8, data := m.data.map astypeUint8 }, WireType.CHAR)
  else if m.dtype.kind = 'f' ∧ m.dtype ≠ DType.float32 then
    Except.ok ({ m with dtype := DType.float32 }, WireType.FL32)
  else if m.dtype.kind = 'S' then
    (if m.dtype.itemsize = 1 then
      Except.ok ({ m with dtype := DType.uint8 }, WireType.CHAR)
    else Except.error JxfError.reshapeError)
  else if m.dtype = DType.uint8 then
    Except.ok (m, WireType.CHAR)
  else if m.dtype = DType.float32 then
    Except.ok (m, WireType.FL32)
  else if m.dtype.kind = 'i' then
    Except.ok ({ m with dtype := DType.int32 }, WireType.LONG)
  else if m.dtype = DType.float64 then
    Except.ok (m, WireType.FL64)
  else
    Except.error (JxfError.unsupportedType m.dtype)

/-- Lines 49-55 of `src/main.py`: the `match matrix.dtype` that re-derives
`matrix_type` (it overwrites the value set by the if/elif chain). -/
def matchWireType : DType → Except JxfError WireType
  | DType.uint8 => Except.ok WireType.CHAR
  | DType.float32 => Except.ok WireType.FL32
  | d => Except.error (JxfError.unsupportedType d)

/-- Everything `export_to_jxf` writes to the file, plus the named
intermediate quantities of lines 56-64 of `src/main.py` so that claims can
speak about them directly.  `bytes` is the exact emitted stream and
`sizeField` the uint32 value written in the container chunk's size field. -/
structure JxfOutput where
  bytes : List Nat
  sizeField : Nat
  matrixType : WireType
  plane_count : Nat
  dim_count : Nat
  dimensions : List Nat
  matrix_header_size : Nat
  matrix_chunk_size : Nat
  total_file_size : Nat
  deriving Repr

/-- Lines 56-96 of `src/main.py` given the resolved matrix `mat`, the wire
type from the `match`, and `plane_count`/`dim_count` (whose case split on
`ndim` happens in `export_to_jxf`):
`dimensions = matrix.shape[:2][::-1]`;
`matrix_data_size = matrix.nbytes` (= product of the shape times the
resolved dtype's item size); `matrix_header_size = 24 + 4*dim_count`;
`matrix_chunk_size = matrix_header_size + matrix_data_size`;
`total_file_size = 20 + 20 + matrix_chunk_size`; and the emission sequence
FORM, total_file_size-8, JIT!, FVER, 12, 0x3C93DC80, MTRX,
matrix_chunk_size, matrix_header_size, wire-type tag, plane_count,
dim_count, each dimension, payload — every integer big-endian uint32. -/
def buildOutput (wt : WireType) (pc dc : Nat) (mat : NDArray) : JxfOutput :=
  let dimensions := (mat.shape.take 2).reverse
  let matrix_data_size := mat.shape.prod * mat.dtype.itemsize
  let matrix_header_size := 24 + 4 * dc
  let matrix_chunk_size := matrix_header_size + matrix_data_size
  let total_file_size := 20 + 20 + matrix_chunk_size
  let payload := (mat.data.map (elemBytes wt)).flatten
  { bytes :=
      [70, 79, 82, 77] ++ pack32 (total_file_size - 8) ++ [74, 73, 84, 33]
      ++ [70, 86, 69, 82] ++ pack32 12 ++ pack32 0x3C93DC80
      ++ [77, 84, 82, 88] ++ pack32 matrix_chunk_size
      ++ pack32 matrix_header_size ++ wt.tag
      ++ pack32 pc ++ pack32 dc
      ++ (dimensions.map pack32).flatten ++ payload
    sizeField := total_file_size - 8
    matrixType := wt
    plane_count := pc
    dim_count := dc
    dimensions := dimensions
    matrix_header_size := matrix_header_size
    matrix_chunk_size := matrix_chunk_size
    total_file_size := total_file_size }

/-- `export_to_jxf` of `src/main.py`, lines 17-96, as a pure function from
the input array to either an error or the emitted output.  Control flow in
source order: the dtype dispatch (17-37), the float32/uint8 check (40-41),
the `match` re-deriving the wire type (49-55), `plane_count` (56; reading
`shape[2]` fails for rank below 3), `dim_count` (57), and the writer
(58-96) via `buildOutput`.  Filename generation (44-46) touches no emitted
byte and is omitted. -/
def export_to_jxf (m : NDArray) : Except JxfError JxfOutput :=
  match resolveDtype m with
  | Except.error e => Except.error e
  | Except.ok (mat, _mt1) =>
    if mat.dtype = DType.float32 ∨ mat.dtype = DType.uint8 then
      match matchWireType mat.dtype with
      | Except.error e => Except.error e
      | Except.ok wt =>
        if mat.shape.length = 2 then
          Except.ok (buildOutput wt 1 2 mat)
        else
          match mat.shape.get? 2 with
          | some p => Except.ok (buildOutput wt p 3 mat)
          | none => Except.error JxfError.indexError
    else
      Except.error (JxfError.dtypeCheckFailed mat.dtype)

/-- Projection of a successful export through `f`; `none` when the export
fails. -/
def exportView {α : Type} (m : NDArray) (f : JxfOutput → α) : Option α :=
  (export_to_jxf m).toOption.map f

/-! Concrete input arrays used in counterexamples and witnesses. -/

/-- The 2x2 uint8 array [[1,2],[3,4]] from the spec's end-to-end property
and the repository's `test_export_uint8`. -/
def arr22 : NDArray := ⟨DType.uint8, [2, 2], [1, 2, 3, 4]⟩

/-- A 2x2 float64 array (the repository's `test_export_float64` shape). -/
def arrF64 : NDArray := ⟨DType.float64, [2, 2], [1, 2, 3, 4]⟩

/-- A rank-3 uint8 array of shape (1, 1, 3): one RGB pixel. -/
def arrHW3 : NDArray := ⟨DType.uint8, [1, 1, 3], [10, 20, 30]⟩

/-- A rank-4 uint8 array of shape (1, 1, 1, 1). -/
def arr4d : NDArray := ⟨DType.uint8, [1, 1, 1, 1], [5]⟩

/-- A rank-4 uint8 array of shape (1, 1, 1, 2). -/
def arr4dB : NDArray := ⟨DType.uint8, [1, 1, 1, 2], [7, 8]⟩

/-- A rank-2 uint8 array of shape (2, 3). -/
def arr23 : NDArray := ⟨DType.uint8, [2, 3], [1, 2, 3, 4, 5, 6]⟩

/-- A rank-1 uint8 array of shape (5,). -/
def arr1d : NDArray := ⟨DType.uint8, [5], [1, 2, 3, 4, 5]⟩

/-- A 2x2 complex64 array: its kind 'c' has no wire-type mapping. -/
def arrC : NDArray := ⟨DType.complex64, [2, 2], [0, 0, 0, 0]⟩

/-- A 2x2x2 float32 array (the spec's second end-to-end property). -/
def arr222f : NDArray := ⟨DType.float32, [2, 2, 2], [0, 0, 0, 0, 0, 0, 0, 0]⟩

/-! Helper lemmas. -/

theorem buildOutput_matrixType (wt : WireType) (pc dc : Nat) (mat : NDArray) :
    (buildOutput wt pc dc mat).matrixType = wt := rfl

theorem buildOutput_plane_count (wt : WireType) (pc dc : Nat) (mat : NDArray) :
    (buildOutput wt pc dc mat).plane_count = pc := rfl

theorem buildOutput_dim_count (wt : WireType) (pc dc : Nat) (mat : NDArray) :
    (buildOutput wt pc dc mat).dim_count = dc := rfl

theorem buildOutput_dimensions (wt : WireType) (pc dc : Nat) (mat : NDArray) :
    (buildOutput wt pc dc mat).dimensions = (mat.shape.take 2).reverse := rfl

theorem buildOutput_matrix_header_size (wt : WireType) (pc dc : Nat) (mat : NDArray) :
    (buildOutput wt pc dc mat).matrix_header_size = 24 + 4 * dc := rfl

theorem buildOutput_matrix_chunk_size (wt : WireType) (pc dc : Nat) (mat : NDArray) :
    (buildOutput wt pc dc mat).matrix_chunk_size
      = 24 + 4 * dc + mat.shape.prod * mat.dtype.itemsize := rfl

/-- Every successful branch of the dtype dispatch keeps the shape and leaves
the matrix with dtype uint8 or float32 (the LONG and FL64 branches are
unreachable: their guards contradict the guards of the earlier branches). -/
theorem resolve_ok_cases {m mat : NDArray} {t : WireType}
    (h : resolveDtype m = Except.ok (mat, t)) :
    mat.shape = m.shape ∧ (mat.dtype = DType.uint8 ∨ mat.dtype = DType.float32) := by
  unfold resolveDtype at h
  split_ifs at h with c1 c2 c3 c3b c4 c5 c6 c7
  · injection h with h1
    injection h1 with hm ht
    subst hm
    simp
  · injection h with h1
    injection h1 with hm ht
    subst hm
    simp
  · injection h with h1
    injection h1 with hm ht
    subst hm
    simp
  · injection h with h1
    injection h1 with hm ht
    subst hm
    exact ⟨rfl, Or.inl c4⟩
  · injection h with h1
    injection h1 with hm ht
    subst hm
    exact ⟨rfl, Or.inr c5⟩
  · exact absurd (And.intro (Or.inl c6) (fun hu => c4 hu)) c1
  · exfalso
    apply c2
    rw [c7]
    exact ⟨rfl, by decide⟩

/-- A float64 input is coerced by the second branch of the dtype dispatch:
the resolved matrix has dtype float32. -/
theorem resolve_float64 {m mat : NDArray} {t : WireType}
    (hd : m.dtype = DType.float64)
    (h : resolveDtype m = Except.ok (mat, t)) : mat.dtype = DType.float32 := by
  unfold resolveDtype at h
  rw [if_neg, if_pos] at h
  · injection h with h1
    injection h1 with hm ht
    subst hm
    rfl
  · rw [hd]
    exact ⟨rfl, by decide⟩
  · rw [hd]
    decide

/-- When the element kind is none of 'i', 'u', 'b', 'f', 'S' — no branch of
the dispatch matches — the chain falls through to the final `else` and
raises `Unsupported data type`, before any file is opened. -/
theorem resolve_no_mapping {m : NDArray}
    (hi : m.dtype.kind ≠ 'i') (hu : m.dtype.kind ≠ 'u') (hb : m.dtype.kind ≠ 'b')
    (hf : m.dtype.kind ≠ 'f') (hS : m.dtype.kind ≠ 'S') :
    resolveDtype m = Except.error (JxfError.unsupportedType m.dtype) := by
  have hu8 : m.dtype ≠ DType.uint8 := fun h => hu (by rw [h]; rfl)
  have hf32 : m.dtype ≠ DType.float32 := fun h => hf (by rw [h]; rfl)
  have hf64 : m.dtype ≠ DType.float64 := fun h => hf (by rw [h]; rfl)
  unfold resolveDtype
  rw [if_neg, if_neg, if_neg, if_neg, if_neg, if_neg, if_neg]
  · exact hf64
  · exact hi
  · exact hf32
  · exact hu8
  · exact hS
  · exact fun hc => hf hc.1
  · exact fun hc => hc.1.elim hi (fun hc2 => hc2.elim hu hb)

/-- Unfolding a successful projected view: the export succeeded on some
output whose projection is the observed value. -/
theorem exportView_some {m : NDArray} {α : Type} {f : JxfOutput → α} {r : α}
    (h : exportView m f = some r) :
    ∃ out, export_to_jxf m = Except.ok out ∧ f out = r := by
  unfold exportView at h
  cases hE : export_to_jxf m with
  | error e =>
    rw [hE] at h
    cases h
  | ok out =>
    rw [hE] at h
    refine ⟨out, rfl, ?_⟩
    simpa [Except.toOption] using h

/-- Inversion of a successful export: the resolver succeeded on a matrix of
the same shape with dtype uint8 (wire type CHAR) or float32 (FL32), and the
output is `buildOutput` with `plane_count`/`dim_count` determined by the
rank exactly as at lines 56-57 of the source. -/
theorem export_ok_inv {m : NDArray} {out : JxfOutput}
    (h : export_to_jxf m = Except.ok out) :
    ∃ mat mt1 wt, resolveDtype m = Except.ok (mat, mt1) ∧
      mat.shape = m.shape ∧
      ((mat.dtype = DType.uint8 ∧ wt = WireType.CHAR) ∨
        (mat.dtype = DType.float32 ∧ wt = WireType.FL32)) ∧
      ((m.shape.length = 2 ∧ out = buildOutput wt 1 2 mat) ∨
        (m.shape.length ≠ 2 ∧
          ∃ p, m.shape.get? 2 = some p ∧ out = buildOutput wt p 3 mat)) := by
  unfold export_to_jxf at h
  split at h
  · cases h
  next mat mt1 heq =>
    obtain ⟨hsh, hdt⟩ := resolve_ok_cases heq
    split at h
    · rename_i hcond
      split at h
      · cases h
      next wt heqW =>
        have hwt : (mat.dtype = DType.uint8 ∧ wt = WireType.CHAR) ∨
            (mat.dtype = DType.float32 ∧ wt = WireType.FL32) := by
          cases hdt with
          | inl h8 =>
            rw [h8] at heqW
            injection heqW with hw
            exact Or.inl ⟨h8, hw.symm⟩
          | inr hf =>
            rw [hf] at heqW
            injection heqW with hw
            exact Or.inr ⟨hf, hw.symm⟩
        split at h
        · rename_i hlen
          injection h with hout
          exact ⟨mat, mt1, wt, heq, hsh, hwt,
            Or.inl ⟨by rw [← hsh]; exact hlen, hout.symm⟩⟩
        · rename_i hlen
          split at h
          next p heqg =>
            injection h with hout
            refine ⟨mat, mt1, wt, heq, hsh, hwt,
              Or.inr ⟨by rw [← hsh]; exact hlen, p, ?_, hout.symm⟩⟩
            rw [← hsh]
            exact heqg
          · cases h
    · cases h

/-! Claim theorems. -/

/-- C1 counterexample: the claim "64-bit float input resolves to wire type
FL64 with no coercion" is false on the code: exporting the 2x2 float64
array yields wire type FL32 (the kind-'f' branch at line 20 coerces to
float32 before the FL64 branch at line 33 can ever match). -/
theorem C1_counterexample :
    exportView arrF64 JxfOutput.matrixType = some WireType.FL32 ∧
      WireType.FL32 ≠ WireType.FL64 :=
  ⟨by decide, by decide⟩

/-- C1 (amended): every input array whose element kind is 64-bit float is
coerced to 32-bit float and, whenever the export succeeds, the resolved
wire type written to the output is FL32, never FL64. -/
theorem C1_coerces_float64 (m : NDArray) (wt : WireType)
    (hd : m.dtype = DType.float64)
    (h : exportView m JxfOutput.matrixType = some wt) : wt = WireType.FL32 := by
  obtain ⟨out, hE, hf⟩ := exportView_some h
  obtain ⟨mat, mt1, wt2, hres, hsh, hwt, hcase⟩ := export_ok_inv hE
  have hm32 : mat.dtype = DType.float32 := resolve_float64 hd hres
  have hout : out.matrixType = wt2 := by
    rcases hcase with ⟨_, rfl⟩ | ⟨_, p, _, rfl⟩ <;> rfl
  rcases hwt with ⟨h8, hw⟩ | ⟨h32, hw⟩
  · rw [hm32] at h8
    exact absurd h8 (by decide)
  · rw [← hf, hout, hw]

/-- C1 witness: the amended claim applied to the concrete float64 array. -/
theorem C1_witness :
    arrF64.dtype = DType.float64 ∧
      exportView arrF64 JxfOutput.matrixType = some WireType.FL32 ∧
      WireType.FL32 = WireType.FL32 :=
  ⟨rfl, by decide, C1_coerces_float64 arrF64 WireType.FL32 rfl (by decide)⟩

/-- C2 counterexample: the claim "a rank-3 (H, W, 3) array takes a
color-image path with plane_count 4 and dim_count 2" is false on the code:
the (1, 1, 3) uint8 array yields plane_count 3 and dim_count 3 — there is
no color-image special case in `export_to_jxf`. -/
theorem C2_counterexample :
    exportView arrHW3 (fun o => (o.plane_count, o.dim_count)) = some (3, 3) ∧
      ((3, 3) : Nat × Nat) ≠ (4, 2) :=
  ⟨by decide, by decide⟩

/-- C2 (amended): for every rank-3 input of shape (H, W, 3) on which the
export succeeds, the output records plane_count == 3 (the trailing axis,
read as `shape[2]` at line 56) and dim_count == 3; no fourth channel is
added. -/
theorem C2_no_color_path (m : NDArray) (hgt wd : Nat) (r : Nat × Nat)
    (hs : m.shape = [hgt, wd, 3])
    (h : exportView m (fun o => (o.plane_count, o.dim_count)) = some r) :
    r = (3, 3) := by
  obtain ⟨out, hE, hf⟩ := exportView_some h
  obtain ⟨mat, mt1, wt, hres, hsh, hwt, hcase⟩ := export_ok_inv hE
  rcases hcase with ⟨h2, rfl⟩ | ⟨hn2, p, hp, rfl⟩
  · rw [hs] at h2
    simp at h2
  · rw [hs] at hp
    have hp3 : p = 3 := by simpa using hp.symm
    subst hp3
    rw [← hf]
    simp [buildOutput_plane_count, buildOutput_dim_count]

/-- C2 witness: the amended claim applied to the concrete (1, 1, 3) array. -/
theorem C2_witness :
    arrHW3.shape = [1, 1, 3] ∧
      exportView arrHW3 (fun o => (o.plane_count, o.dim_count)) = some (3, 3) ∧
      ((3, 3) : Nat × Nat) = (3, 3) :=
  ⟨rfl, by decide, C2_no_color_path arrHW3 1 1 (3, 3) rfl (by decide)⟩

/-- C3: the claim "the uint32 value written in the container chunk's size
field equals the total number of bytes actually emitted minus 8" is right
about the intended IFF layout, but the code is wrong: on the 2x2 uint8
array [[1,2],[3,4]] it writes 68 in the size field while emitting only 60
bytes (60 - 8 = 52).  The slip is `total_file_size = 20 + 20 +
matrix_chunk_size` at line 64, which counts 20 bytes each for the container
and format sections although the writer emits 12 bytes each, so every size
field overshoots the emitted stream by 16. -/
theorem C3_size_field_mismatch :
    exportView arr22 (fun o => (o.sizeField, o.bytes.length)) = some (68, 60) ∧
      (68 : Nat) ≠ 60 - 8 :=
  ⟨by decide, by decide⟩

/-- C4 counterexample: the claim "every input whose rank is not 2 or 3
fails with UnsupportedRank" is false on the code: the rank-4 uint8 array of
shape (1, 1, 1, 1) is exported without any error — `export_to_jxf` has no
rank check at all. -/
theorem C4_counterexample :
    (export_to_jxf arr4d).toOption.isSome = true := by decide

/-- C4 (amended): inputs of rank 0 or 1 always fail (reading `shape[2]` at
line 56 raises an index error, unless an earlier dtype error fired), but
never with a dedicated UnsupportedRank error; inputs of rank 4 or more are
not rejected. -/
theorem C4_no_rank_check (m : NDArray) (hr : m.shape.length ≤ 1) :
    (export_to_jxf m).toOption = none := by
  cases hE : export_to_jxf m with
  | error e => rfl
  | ok out =>
    exfalso
    obtain ⟨mat, mt1, wt, hres, hsh, hwt, hcase⟩ := export_ok_inv hE
    rcases hcase with ⟨h2, _⟩ | ⟨hn2, p, hp, _⟩
    · omega
    · obtain ⟨hlt, _⟩ := List.get?_eq_some.mp hp
      omega

/-- C4 witness: the amended claim applied to the rank-1 array. -/
theorem C4_witness :
    arr1d.shape.length ≤ 1 ∧ (export_to_jxf arr1d).toOption = none :=
  ⟨by decide, C4_no_rank_check arr1d (by decide)⟩

/-- C5 counterexample: the claim "encoding the 2x2 uint8 array [[1,2],[3,4]]
produces exactly 76 bytes" is false on the code: exactly 60 bytes are
emitted (76 is the code's internal `total_file_size`, which overcounts the
container and format sections by 16). -/
theorem C5_counterexample :
    exportView arr22 (fun o => o.bytes.length) = some 60 ∧ (60 : Nat) ≠ 76 :=
  ⟨by decide, by decide⟩

/-- C5 (amended): encoding the 2x2 uint8 array [[1,2],[3,4]] emits exactly
60 bytes; the first 4 bytes are 'FORM' (70, 79, 82, 77) and the matrix
sub-header's wire-type tag (bytes 36-39) is 'CHAR' (67, 72, 65, 82). -/
theorem C5_end_to_end :
    exportView arr22
        (fun o => (o.bytes.length, o.bytes.take 4, (o.bytes.drop 36).take 4, o.matrixType))
      = some (60, [70, 79, 82, 77], [67, 72, 65, 82], WireType.CHAR) := by
  decide

/-- C6: for every input on which the export succeeds, the emitted dimension
list is `shape[:2]` reversed and always has exactly 2 entries — in
particular for rank-3 inputs only 2 dimension values are emitted while the
dim_count field records 3. -/
theorem C6_two_dims_emitted (m : NDArray) (r : List Nat × Nat)
    (h : exportView m (fun o => (o.dimensions, o.dim_count)) = some r) :
    r.1 = (m.shape.take 2).reverse ∧ r.1.length = 2 ∧
      (m.shape.length = 3 → r.2 = 3) := by
  obtain ⟨out, hE, hf⟩ := exportView_some h
  obtain ⟨mat, mt1, wt, hres, hsh, hwt, hcase⟩ := export_ok_inv hE
  rcases hcase with ⟨h2, rfl⟩ | ⟨hn2, p, hp, rfl⟩
  · rw [← hf]
    refine ⟨?_, ?_, ?_⟩
    · show (mat.shape.take 2).reverse = (m.shape.take 2).reverse
      rw [hsh]
    · show ((mat.shape.take 2).reverse).length = 2
      rw [List.length_reverse, List.length_take, hsh]
      omega
    · intro h3
      show (2 : Nat) = 3
      omega
  · obtain ⟨hlt, _⟩ := List.get?_eq_some.mp hp
    rw [← hf]
    refine ⟨?_, ?_, fun _ => rfl⟩
    · show (mat.shape.take 2).reverse = (m.shape.take 2).reverse
      rw [hsh]
    · show ((mat.shape.take 2).reverse).length = 2
      rw [List.length_reverse, List.length_take, hsh]
      omega

/-- C6 witness: the theorem applied to the concrete 2x2x2 float32 array. -/
theorem C6_witness :
    exportView arr222f (fun o => (o.dimensions, o.dim_count)) = some ([2, 2], 3) ∧
      (([2, 2], 3) : List Nat × Nat).1 = (arr222f.shape.take 2).reverse ∧
      (([2, 2], 3) : List Nat × Nat).1.length = 2 ∧
      (arr222f.shape.length = 3 → (([2, 2], 3) : List Nat × Nat).2 = 3) :=
  ⟨by decide, C6_two_dims_emitted arr222f ([2, 2], 3) (by decide)⟩

/-- C7 counterexample: the claim quantifies over every input on which the
export succeeds, but the rank-4 uint8 array of shape (1, 1, 1, 2) succeeds
(there is no rank check) with matrix_chunk_size = 38 while
matrix_header_size + plane_count * prod(dimensions) * element_width = 37:
the byte count uses the full shape product but plane_count * prod(dimensions)
only covers the first three axes. -/
theorem C7_counterexample :
    exportView arr4dB (fun o =>
        (o.matrix_chunk_size,
          o.matrix_header_size + o.plane_count * o.dimensions.prod * o.matrixType.width))
      = some (38, 37) ∧ (38 : Nat) ≠ 37 :=
  ⟨by decide, by decide⟩

/-- C7 (amended): for every input of rank 2 or 3 on which the export
succeeds, matrix_header_size == 24 + 4 * dim_count and matrix_chunk_size ==
matrix_header_size + plane_count * prod(dimensions) * element_width, where
element_width is the resolved wire type's element byte width. -/
theorem C7_size_equations (m : NDArray) (mhs mcs pc dc : Nat) (dims : List Nat) (wt : WireType)
    (hr : m.shape.length = 2 ∨ m.shape.length = 3)
    (h : exportView m (fun o =>
        (o.matrix_header_size, o.matrix_chunk_size, o.plane_count, o.dim_count,
          o.dimensions, o.matrixType))
      = some (mhs, mcs, pc, dc, dims, wt)) :
    mhs = 24 + 4 * dc ∧ mcs = mhs + pc * dims.prod * wt.width := by
  obtain ⟨out, hE, hf⟩ := exportView_some h
  obtain ⟨mat, mt1, wt2, hres, hsh, hwt, hcase⟩ := export_ok_inv hE
  have hwidth : mat.dtype.itemsize = wt2.width := by
    rcases hwt with ⟨h8, hw⟩ | ⟨h32, hw⟩
    · rw [h8, hw]
      rfl
    · rw [h32, hw]
      rfl
  rcases hcase with ⟨h2, rfl⟩ | ⟨hn2, p, hp, rfl⟩
  · obtain ⟨a, b, hab⟩ := List.length_eq_two.mp h2
    have hf' : ((24 + 4 * 2 : Nat), (24 + 4 * 2 + mat.shape.prod * mat.dtype.itemsize : Nat),
        (1 : Nat), (2 : Nat), (mat.shape.take 2).reverse, wt2)
        = (mhs, mcs, pc, dc, dims, wt) := hf
    injection hf' with e1 hrest
    injection hrest with e2 hrest
    injection hrest with e3 hrest
    injection hrest with e4 hrest
    injection hrest with e5 e6
    subst e1; subst e2; subst e3; subst e4; subst e5; subst e6
    refine ⟨rfl, ?_⟩
    rw [hwidth, hsh, hab]
    show 24 + 4 * 2 + (a * (b * 1)) * wt2.width
      = 24 + 4 * 2 + 1 * (b * (a * 1)) * wt2.width
    ring
  · have h3 : m.shape.length = 3 := by
      rcases hr with h | h
      · exact absurd h hn2
      · exact h
    obtain ⟨a, b, c, hab⟩ := List.length_eq_three.mp h3
    rw [hab] at hp
    have hpc : p = c := by simpa using hp.symm
    subst hpc
    have hf' : ((24 + 4 * 3 : Nat), (24 + 4 * 3 + mat.shape.prod * mat.dtype.itemsize : Nat),
        p, (3 : Nat), (mat.shape.take 2).reverse, wt2)
        = (mhs, mcs, pc, dc, dims, wt) := hf
    injection hf' with e1 hrest
    injection hrest with e2 hrest
    injection hrest with e3 hrest
    injection hrest with e4 hrest
    injection hrest with e5 e6
    subst e1; subst e2; subst e3; subst e4; subst e5; subst e6
    refine ⟨rfl, ?_⟩
    rw [hwidth, hsh, hab]
    show 24 + 4 * 3 + (a * (b * (p * 1))) * wt2.width
      = 24 + 4 * 3 + p * (b * (a * 1)) * wt2.width
    ring

/-- C7 witness: the amended claim applied to the 2x2 uint8 array. -/
theorem C7_witness :
    (arr22.shape.length = 2 ∨ arr22.shape.length = 3) ∧
      exportView arr22 (fun o =>
          (o.matrix_header_size, o.matrix_chunk_size, o.plane_count, o.dim_count,
            o.dimensions, o.matrixType))
        = some (32, 36, 1, 2, [2, 2], WireType.CHAR) ∧
      ((32 : Nat) = 24 + 4 * 2 ∧
        (36 : Nat) = 32 + 1 * ([2, 2] : List Nat).prod * WireType.CHAR.width) :=
  ⟨Or.inl rfl, by decide,
    C7_size_equations arr22 32 36 1 2 [2, 2] WireType.CHAR (Or.inl rfl) (by decide)⟩

/-- C8: every input whose element kind has no entry in the dispatch (the
kind is none of 'i', 'u', 'b', 'f', 'S' — e.g. complex 'c' or unicode 'U')
makes `export_to_jxf` fail with the unsupported-type error naming the
offending dtype; the error is raised at line 37, before the output file is
opened, so nothing is written. -/
theorem C8_unsupported_kind (m : NDArray)
    (hi : m.dtype.kind ≠ 'i') (hu : m.dtype.kind ≠ 'u') (hb : m.dtype.kind ≠ 'b')
    (hf : m.dtype.kind ≠ 'f') (hS : m.dtype.kind ≠ 'S') :
    export_to_jxf m = Except.error (JxfError.unsupportedType m.dtype) := by
  unfold export_to_jxf
  rw [resolve_no_mapping hi hu hb hf hS]

/-- C8 witness: the theorem applied to the 2x2 complex64 array. -/
theorem C8_witness :
    arrC.dtype.kind ≠ 'i' ∧ arrC.dtype.kind ≠ 'u' ∧ arrC.dtype.kind ≠ 'b' ∧
      arrC.dtype.kind ≠ 'f' ∧ arrC.dtype.kind ≠ 'S' ∧
      export_to_jxf arrC = Except.error (JxfError.unsupportedType DType.complex64) :=
  ⟨by decide, by decide, by decide, by decide, by decide,
    C8_unsupported_kind arrC (by decide) (by decide) (by decide) (by decide) (by decide)⟩

/-- C9: for every rank-2 input of shape (H, W) on which the export
succeeds, the output records dim_count == 2 and dimensions == (W, H), the
array's shape reversed. -/
theorem C9_shape_reversed (m : NDArray) (hgt wd : Nat) (r : Nat × List Nat)
    (hs : m.shape = [hgt, wd])
    (h : exportView m (fun o => (o.dim_count, o.dimensions)) = some r) :
    r = (2, [wd, hgt]) := by
  obtain ⟨out, hE, hf⟩ := exportView_some h
  obtain ⟨mat, mt1, wt, hres, hsh, hwt, hcase⟩ := export_ok_inv hE
  rcases hcase with ⟨h2, rfl⟩ | ⟨hn2, p, hp, rfl⟩
  · rw [← hf]
    show ((2 : Nat), (mat.shape.take 2).reverse) = (2, [wd, hgt])
    rw [hsh, hs]
    rfl
  · rw [hs] at hn2
    simp at hn2

/-- C9 witness: the theorem applied to the 2x3 uint8 array. -/
theorem C9_witness :
    arr23.shape = [2, 3] ∧
      exportView arr23 (fun o => (o.dim_count, o.dimensions)) = some (2, [3, 2]) ∧
      ((2, [3, 2]) : Nat × List Nat) = (2, [3, 2]) :=
  ⟨rfl, by decide, C9_shape_reversed arr23 2 3 (2, [3, 2]) rfl (by decide)⟩

/-- C10: for every input on which the export succeeds, the wire type
written to the output is CHAR or FL32; after the float32/uint8 check at
line 40 and the `match` at lines 49-55, LONG and FL64 can never reach the
writer, so their payload branches at lines 91-96 are unreachable. -/
theorem C10_only_char_fl32 (m : NDArray) (wt : WireType)
    (h : exportView m JxfOutput.matrixType = some wt) :
    wt = WireType.CHAR ∨ wt = WireType.FL32 := by
  obtain ⟨out, hE, hf⟩ := exportView_some h
  obtain ⟨mat, mt1, wt2, hres, hsh, hwt, hcase⟩ := export_ok_inv hE
  have hout : out.matrixType = wt2 := by
    rcases hcase with ⟨_, rfl⟩ | ⟨_, p, _, rfl⟩ <;> rfl
  rcases hwt with ⟨_, hw⟩ | ⟨_, hw⟩
  · exact Or.inl (by rw [← hf, hout, hw])
  · exact Or.inr (by rw [← hf, hout, hw])

/-- C10 witness: the theorem applied to the 2x2x2 float32 array. -/
theorem C10_witness :
    exportView arr222f JxfOutput.matrixType = some WireType.FL32 ∧
      (WireType.FL32 = WireType.CHAR ∨ WireType.FL32 = WireType.FL32) :=
  ⟨by decide, C10_only_char_fl32 arr222f WireType.FL32 (by decide)⟩

end NumpyToJxf
